import Mathlib

/-!
Verification development for the `pylibtiff` TIFF reader
(`src/libtiff/tiff_file.py`).

The embedding has two layers, mirroring how the Python code is organised:

* a byte layer: the `TIFFfile.__init__` header/directory-chain parser,
  the typed accessors `get_uint16`/`get_uint32`/`get_int32`,
  `get_values`/`get_value`, and `IFDEntry.__init__`;
* a value layer: the `IFD` tag-record view (`get`, `get_value`,
  `is_contiguous`) and `TIFFfile.get_samples`, which only ever consume
  directory entries through `get`/`get_value` and the mapped data buffer.

Machine-integer behaviour is modelled explicitly: the numpy typed views
used by the source are native-byte-order reads (parameterised here by
`native`), and numpy scalar arithmetic on `uint32` values wraps modulo
2^32 (`u32add`/`u32sub`).
-/

namespace PyTiff

/-- Host byte order of the numpy views (`numpy.uint16` etc. are
native-order dtypes in the source). -/
inductive Endian where
  | little
  | big
deriving DecidableEq, Repr

/-- `TIFFfile.get_uint16`: `self.data[offset:offset+2].view(dtype=numpy.uint16)[0]`.
The view decodes in the host's native byte order; out-of-range bytes are
taken as 0 here (numpy would raise, no claim exercises that case). -/
def get_uint16 (native : Endian) (data : List Nat) (offset : Nat) : Nat :=
  match native with
  | .little => data.getD offset 0 + 256 * data.getD (offset + 1) 0
  | .big => 256 * data.getD offset 0 + data.getD (offset + 1) 0

/-- `TIFFfile.get_uint32`: 4-byte native-order view. -/
def get_uint32 (native : Endian) (data : List Nat) (offset : Nat) : Nat :=
  match native with
  | .little =>
      data.getD offset 0 + 256 * data.getD (offset + 1) 0
        + 65536 * data.getD (offset + 2) 0 + 16777216 * data.getD (offset + 3) 0
  | .big =>
      16777216 * data.getD offset 0 + 65536 * data.getD (offset + 1) 0
        + 256 * data.getD (offset + 2) 0 + data.getD (offset + 3) 0

/-- `TIFFfile.get_int32`: the same 4 bytes viewed as a signed 32-bit
integer (two's complement). -/
def get_int32 (native : Endian) (data : List Nat) (offset : Nat) : Int :=
  let u := get_uint32 native data offset
  if u < 2147483648 then (u : Int) else (u : Int) - 4294967296

/-- Modelled from the spec: the external `type2bytes` table of
`tiff_data.py` (not under `src/`); spec section 6 fixes the byte widths
of type codes 1..12 as 1,1,2,4,8,1,1,2,4,8,4,8. -/
def type2bytes (t : Nat) : Option Nat :=
  match t with
  | 1 => some 1
  | 2 => some 1
  | 3 => some 2
  | 4 => some 4
  | 5 => some 8
  | 6 => some 1
  | 7 => some 1
  | 8 => some 2
  | 9 => some 4
  | 10 => some 8
  | 11 => some 4
  | 12 => some 8
  | _ => none

/-- Modelled from the spec: the external `type2dtype` table of
`tiff_data.py` has exactly the codes 1..12 (same domain as `type2bytes`);
only its definedness is consulted by `get_values`. -/
def type2dtypeDefined (t : Nat) : Bool :=
  1 ≤ t && t ≤ 12

/-- Modelled from the spec: the external `type2name` table
(codes 1..12, standard TIFF type names). -/
def type2name (t : Nat) : Option String :=
  match t with
  | 1 => some "BYTE"
  | 2 => some "ASCII"
  | 3 => some "SHORT"
  | 4 => some "LONG"
  | 5 => some "RATIONAL"
  | 6 => some "SBYTE"
  | 7 => some "UNDEFINED"
  | 8 => some "SSHORT"
  | 9 => some "SLONG"
  | 10 => some "SRATIONAL"
  | 11 => some "FLOAT"
  | 12 => some "DOUBLE"
  | _ => none

/-- Modelled from the spec: the external `tag_value2name` table of
`tiff_data.py`; only the standard baseline tags used by the core are
listed (unknown tags get a synthesized name, as in the source). -/
def tag_value2name (t : Nat) : Option String :=
  match t with
  | 254 => some "NewSubfileType"
  | 256 => some "ImageWidth"
  | 257 => some "ImageLength"
  | 258 => some "BitsPerSample"
  | 259 => some "Compression"
  | 262 => some "PhotometricInterpretation"
  | 273 => some "StripOffsets"
  | 277 => some "SamplesPerPixel"
  | 278 => some "RowsPerStrip"
  | 279 => some "StripByteCounts"
  | 284 => some "PlanarConfiguration"
  | 339 => some "SampleFormat"
  | _ => none

/-- Python slice `data[a:b]` with the usual clamping of both ends; the
bounds are `Int` because the source stores out-of-line offsets through
`get_int32` (negative Python indices count from the end). -/
def pySlice (data : List Nat) (a b : Int) : List Nat :=
  let n : Int := data.length
  let norm : Int → Nat := fun i =>
    if i < 0 then (max 0 (n + i)).toNat else (min i n).toNat
  (data.take (norm b)).drop (norm a)

/-- Python slice `data[a:b]` with natural-number bounds. -/
def pySliceN (data : List Nat) (a b : Nat) : List Nat :=
  (data.take b).drop a

/-- Cut a list into consecutive chunks of `w` elements, dropping a
partial tail (fuel-indexed so that it is structural recursion). -/
def chunkGo (w : Nat) : Nat → List Nat → List (List Nat)
  | 0, _ => []
  | _ + 1, [] => []
  | fuel + 1, l =>
      if w = 0 ∨ l.length < w then []
      else l.take w :: chunkGo w fuel (l.drop w)

/-- Cut a list into consecutive `w`-byte chunks (the element views taken
by `numpy.view(dtype)` over a byte slice). -/
def chunkList (w : Nat) (l : List Nat) : List (List Nat) :=
  chunkGo w l.length l

/-- `TIFFfile.get_values` for an integer type code: when either table
lookup fails the source writes a diagnostic to stderr and returns `None`
(the bare `return` on line 104); otherwise it returns the typed zero-copy
view of `count` elements, modelled as the raw `width`-byte groups. -/
def get_values (native : Endian) (data : List Nat) (offset : Int)
    (typ count : Nat) : Option (List (List Nat)) :=
  match type2bytes typ, type2dtypeDefined typ with
  | some w, true => some (chunkList w (pySlice data offset (offset + w * count)))
  | _, _ => none

/-- `TIFFfile.get_value`: `get_values(offset, type, 1)` and take element 0
when the result is not `None`. -/
def get_value (native : Endian) (data : List Nat) (offset : Int)
    (typ : Nat) : Option (List Nat) :=
  (get_values native data offset typ 1).bind fun vs => vs.head?

/-- The value stored on an `IFDEntry`: a scalar (single element, the
inline case) or the array view (the out-of-line case). -/
inductive EntryVal where
  | scalar (bytes : List Nat)
  | arrv (elems : List (List Nat))
deriving DecidableEq, Repr

/-- Hexadecimal rendering used by the synthesized `TAG0x..` names
(Python `hex(tag)`). -/
def natToHex (n : Nat) : String :=
  "0x" ++ String.mk (Nat.toDigits 16 n)

/-- One decoded directory entry (`IFDEntry` attributes after
`__init__`); `value` is `none` exactly when the source leaves the
`value` attribute unset (line 554: `if value is not None`). -/
structure IFDEntry where
  tag : Nat
  typ : Nat
  count : Nat
  offset : Option Int
  value : Option EntryVal
  tag_name : String
  type_name : String
  memory_usage : List (Int × Int × String)
deriving DecidableEq, Repr

/-- `IFDEntry.__init__` (lines 535-561), with the hook registries empty:
the two module-level hook lists hold no entry-init hooks in the core, and
the vendor (`lsm`) module's registrations are outside `src/`. -/
def IFDEntry.init (native : Endian) (data : List Nat) (offset : Nat) : IFDEntry :=
  let tag := get_uint16 native data offset
  let typ := get_uint16 native data (offset + 2)
  let count := get_uint32 native data (offset + 4)
  let w := (type2bytes typ).getD 0
  let tag_name := (tag_value2name tag).getD ("TAG" ++ natToHex tag)
  let type_name := (type2name typ).getD ("TYPE" ++ toString typ)
  if count = 1 ∧ 1 ≤ w ∧ w ≤ 4 then
    { tag := tag, typ := typ, count := count,
      offset := none,
      value := (get_value native data ((offset : Int) + 8) typ).map .scalar,
      tag_name := tag_name, type_name := type_name,
      memory_usage := [] }
  else
    let o := get_int32 native data (offset + 8)
    { tag := tag, typ := typ, count := count,
      offset := some o,
      value := (get_values native data o typ count).map .arrv,
      tag_name := tag_name, type_name := type_name,
      memory_usage := [(o, o + w * count, tag_name)] }

/-- One parsed directory: the `n` entries decoded at
`IFD_offset + 2 + i*12` (loop of lines 56-61). -/
structure IFDRaw where
  offset : Nat
  entries : List IFDEntry
deriving DecidableEq, Repr

/-- The body of one `while` iteration of `TIFFfile.__init__`: decode the
directory whose entry count sits at `offset`. -/
def readIFD (native : Endian) (data : List Nat) (offset : Nat) : IFDRaw :=
  let n := get_uint16 native data offset
  { offset := offset,
    entries := (List.range n).map fun i => IFDEntry.init native data (offset + 2 + i * 12) }

/-- The 4-byte next-directory offset read after the entry table
(`self.get_uint32(IFD_offset + 2 + n*12)`, line 64). -/
def nextIFDOffset (native : Endian) (data : List Nat) (offset : Nat) : Nat :=
  get_uint32 native data (offset + 2 + get_uint16 native data offset * 12)

/-- The `while IFD_offset:` loop of lines 55-64, indexed by fuel; `none`
means the fuel ran out, i.e. the unbounded source loop has not terminated
within `fuel` iterations. -/
def walkIFDs (native : Endian) (data : List Nat) : Nat → Nat → Option (List IFDRaw)
  | 0, _ => none
  | fuel + 1, offset =>
      if offset = 0 then some []
      else
        match walkIFDs native data fuel (nextIFDOffset native data offset) with
        | none => none
        | some rest => some (readIFD native data offset :: rest)

/-- The `TIFFfile` state established by `__init__`: resolved endianness
and the ordered directory chain. -/
structure TIFFfile where
  endian : Endian
  IFD : List IFDRaw
deriving DecidableEq, Repr

/-- Outcome of opening a file: the two `ValueError` raises of
`__init__`, divergence of the unbounded chain walk, or the constructed
file object. -/
inductive OpenResult where
  | badByteorder
  | badMagic
  | diverged
  | ok (t : TIFFfile)
deriving DecidableEq, Repr

/-- The endianness recorded by a successful open, if any. -/
def OpenResult.endianOf : OpenResult → Option Endian
  | .ok t => some t.endian
  | _ => none

/-- Header validation and chain walk of `TIFFfile.__init__` for a given
recognized byte-order marker. -/
def openTiffBody (native : Endian) (data : List Nat) (first_byte fuel : Nat)
    (endian : Endian) : OpenResult :=
  if get_uint16 native data (first_byte + 2) ≠ 42 then .badMagic
  else
    match walkIFDs native data fuel
        (first_byte + get_uint32 native data (first_byte + 4)) with
    | none => .diverged
    | some l => .ok { endian := endian, IFD := l }

/-- `TIFFfile.__init__` (lines 32-65): byte-order marker, magic check,
then the directory-chain walk starting at the header's offset field. -/
def openTiff (native : Endian) (data : List Nat) (first_byte fuel : Nat) : OpenResult :=
  let byteorder := get_uint16 native data first_byte
  if byteorder = 18761 then openTiffBody native data first_byte fuel .little
  else if byteorder = 19789 then openTiffBody native data first_byte fuel .big
  else .badByteorder

/-- A directory chain in the claim's sense: `offs` lists the directory
offsets in file order, each nonzero, each followed by the next through
the 4-byte next-directory field, the last followed by 0. -/
def ChainSpec (native : Endian) (data : List Nat) : Nat → List Nat → Prop
  | offset, [] => offset = 0
  | offset, o :: rest =>
      offset = o ∧ o ≠ 0 ∧ ChainSpec native data (nextIFDOffset native data o) rest

instance ChainSpec.dec (native : Endian) (data : List Nat) :
    (offset : Nat) → (offs : List Nat) → Decidable (ChainSpec native data offset offs)
  | offset, [] => inferInstanceAs (Decidable (offset = 0))
  | offset, o :: rest =>
      have := ChainSpec.dec native data (nextIFDOffset native data o) rest
      inferInstanceAs (Decidable (offset = o ∧ o ≠ 0 ∧ _))

/-! ### Value layer: tag records and `get_samples`

`get_samples` consumes directory entries only through `IFD.get` /
`IFD.get_value` and the mapped buffer.  The entry values involved are
numpy `uint` scalars or arrays; they are modelled as `TagValue`.  Numpy
scalar arithmetic on the (32-bit) strip offsets and byte counts wraps
modulo 2^32, modelled by `u32add`/`u32sub`/`u32mul`. -/

/-- 2^32, the modulus of the numpy `uint32` scalars holding strip
offsets and byte counts (TIFF `LONG` values). -/
def M32 : Nat := 4294967296

/-- Wrapping `uint32` addition. -/
def u32add (a b : Nat) : Nat := (a + b) % M32

/-- Wrapping `uint32` subtraction: numpy `uint32 - uint32` stays
`uint32` and wraps, it never produces a negative number. -/
def u32sub (a b : Nat) : Nat := (a % M32 + (M32 - b % M32)) % M32

/-- Wrapping `uint32` multiplication. -/
def u32mul (a b : Nat) : Nat := a * b % M32

/-- A tag value as seen by `get_samples`: a numpy scalar (entry stored
inline, `count == 1`) or a numpy array (out-of-line view). -/
inductive TagValue where
  | scalar (n : Nat)
  | arrv (xs : List Nat)
deriving DecidableEq, Repr

/-- The record view of one directory used by `get_samples`: tag names
paired with their values (`IFDEntry.tag_name` / `IFDEntry.value`). -/
structure IFD where
  entries : List (String × TagValue)
deriving DecidableEq, Repr

/-- `IFD.get`: the first entry with the given tag name, or `None`. -/
def IFD.get (ifd : IFD) (tag_name : String) : Option TagValue :=
  (ifd.entries.find? fun e => e.1 == tag_name).map (·.2)

/-- `IFD.get_value`: the entry's value when the entry exists, otherwise
the supplied default (`None` when the caller passes no default). -/
def IFD.get_value (ifd : IFD) (tag_name : String) (default : Option TagValue) :
    Option TagValue :=
  match ifd.get tag_name with
  | some v => some v
  | none => default

/-- The strip-adjacency loop of `IFD.is_contiguous` (lines 456-458):
walk the offsets pairwise, requiring `offsets[i] + counts[i] ==
offsets[i+1]`; `none` models the `IndexError` raised when the counts
array is shorter than the loop needs. -/
def contigAux : List Nat → List Nat → Option Bool
  | o0 :: o1 :: os, c0 :: cs =>
      if u32add o0 c0 ≠ o1 then some false else contigAux (o1 :: os) cs
  | _ :: _ :: _, [] => none
  | _, _ => some true

/-- `IFD.is_contiguous` (lines 452-459): scalar strip offsets (a single
strip) are always contiguous; array offsets are checked pairwise.
`none` models the exceptions (missing `StripOffsets`/`StripByteCounts`
entry gives `AttributeError`, a too-short counts array `IndexError`). -/
def IFD.is_contiguous (ifd : IFD) : Option Bool :=
  match ifd.get "StripOffsets", ifd.get "StripByteCounts" with
  | some so, some sc =>
      match so, sc with
      | .arrv offs, .arrv cnts => contigAux offs cnts
      | .arrv offs, .scalar _ => if offs.length ≤ 1 then some true else none
      | .scalar _, _ => some true
  | _, _ => none

/-- `TIFFfile` as seen by `get_samples`: the mapped byte buffer, the
directory chain (`self.IFD`) in its record view, and the vendor flag
`self.is_lsm`. -/
structure TIFFstack where
  data : List Nat
  ifds : List IFD
  is_lsm : Bool
deriving Repr

/-- The failure modes of `get_samples`.  Every Python `assert` raises
`AssertionError`; the constructors record the assert site.  `pyError`
stands for the remaining exception kinds an ill-shaped input triggers
(`TypeError`, `AttributeError`, `IndexError`, `ZeroDivisionError`,
`NameError`); `externalCodec` and `vendorLsmPath` mark calls into the
external LZW codec and vendor LSM module, which are outside `src/`. -/
inductive SErr where
  | notContiguous
  | inconsistentWidth
  | inconsistentLength
  | inconsistentPlanar
  | inconsistentStripLength
  | inconsistentBits
  | stepAssert
  | bitsAlignAssert
  | rowsPerStripAssert
  | lenStripsAssert
  | unsupportedSPP
  | unsupportedPlanar
  | startEndStepError
  | reshapeError
  | externalCodec
  | vendorLsmPath
  | pyError
deriving DecidableEq, Repr

/-- The structural parameters read once from slice 0 (lines 239-279). -/
structure P0 where
  compression : Option TagValue
  width : Option TagValue
  length : Option TagValue
  spp : Nat
  planar : Option TagValue
  bits : Option TagValue
  dtype_lst : List Nat
  bits_per_pixel : Nat
  bytes_per_pixel : Nat
  bytes_per_row : Nat
  strip_length : Nat
  bytes_per_image : Nat
  rows_per_strip : Nat
  strips_per_image : Nat
deriving DecidableEq, Repr

/-- The state threaded through the slice loop of `get_samples`: the
strip-span list `l`, the inter-slice `step`, the fast-path flag, and the
slice-0 parameters once established. -/
structure LoopSt where
  l : List (Nat × Nat)
  step : Nat
  can_return_memmap : Bool
  p0 : Option P0
deriving DecidableEq, Repr

/-- Byte width of the numpy dtype named `'%s%s' % (format, bits)`;
`none` when `getattr(numpy, name)` would raise `AttributeError`. -/
def numpyDtypeBytes (format : String) (bits : Nat) : Option Nat :=
  if (format = "uint" ∨ format = "int") ∧ (bits = 8 ∨ bits = 16 ∨ bits = 32 ∨ bits = 64) then
    some (bits / 8)
  else if format = "float" ∧ (bits = 16 ∨ bits = 32 ∨ bits = 64) then some (bits / 8)
  else if format = "complex" ∧ (bits = 64 ∨ bits = 128) then some (bits / 8)
  else none

/-- The sample-format map of line 254: `{1:'uint', 2:'int', 3:'float',
None:'uint', 6:'complex'}`, any unrecognized scalar falling back to
`'uint'` with a console warning; an array value is unhashable as a dict
key (`TypeError`). -/
def resolveFormat : Option TagValue → Except SErr String
  | some (.arrv _) => .error .pyError
  | some (.scalar 1) => .ok "uint"
  | some (.scalar 2) => .ok "int"
  | some (.scalar 3) => .ok "float"
  | some (.scalar 6) => .ok "complex"
  | some (.scalar _) => .ok "uint"
  | none => .ok "uint"

/-- The `i == 0` branch of the slice loop (lines 239-279): read the
structural parameters, resolve the element dtypes, and check the
bits-alignment and rows-per-strip assertions. -/
def processFirst (t : TIFFstack) (ifd : IFD) (so : TagValue) (span : Nat × Nat)
    (l' : List (Nat × Nat)) (st : LoopSt) : Except SErr LoopSt := do
  let compression := ifd.get_value "Compression" none
  let can' := if compression = some (.scalar 1) then st.can_return_memmap else false
  let width := ifd.get_value "ImageWidth" none
  let length := ifd.get_value "ImageLength" none
  let sppV := ifd.get_value "SamplesPerPixel" (some (.scalar 1))
  let planar := ifd.get_value "PlanarConfiguration" none
  let bits := ifd.get_value "BitsPerSample" none
  let sample_format := ifd.get_value "SampleFormat" none
  let spp ← match sppV with
    | some (.scalar n) => pure n
    | _ => throw .pyError
  let strips_per_image :=
    if t.is_lsm then 1
    else match so with
      | .arrv offs => offs.length
      | .scalar _ => 1
  let format ← resolveFormat sample_format
  let bpdl ← match bits with
    | some (.arrv bl) => do
        if bl.length < spp then throw .pyError
        let sel := bl.take spp
        let dl ← sel.mapM fun b =>
          match numpyDtypeBytes format b with
          | some e => pure e
          | none => throw .pyError
        pure (sel.sum, dl)
    | some (.scalar b) =>
        match numpyDtypeBytes format b with
        | some e => pure (b, [e])
        | none => throw .pyError
    | none => throw .pyError
  let bits_per_pixel := bpdl.1
  let dtype_lst := bpdl.2
  let bytes_per_pixel := bits_per_pixel / 8
  if 8 * bytes_per_pixel ≠ bits_per_pixel then throw .bitsAlignAssert
  let widthN ← match width with
    | some (.scalar n) => pure n
    | _ => throw .pyError
  let lengthN ← match length with
    | some (.scalar n) => pure n
    | _ => throw .pyError
  let bytes_per_row := u32mul widthN bytes_per_pixel
  let strip_length := u32sub span.2 span.1
  let bytes_per_image := u32mul lengthN bytes_per_row
  if bytes_per_row * strips_per_image = 0 then throw .pyError
  let rows_per_strip := bytes_per_image / (bytes_per_row * strips_per_image)
  match ifd.get_value "RowsPerStrip" none with
  | some (.scalar r) =>
      if r ≠ rows_per_strip then throw .rowsPerStripAssert else pure ()
  | some (.arrv _) => throw .pyError
  | none => pure ()
  pure ⟨l', st.step, can',
        some ⟨compression, width, length, spp, planar, bits, dtype_lst,
              bits_per_pixel, bytes_per_pixel, bytes_per_row, strip_length,
              bytes_per_image, rows_per_strip, strips_per_image⟩⟩

/-- The `i > 0` branch of the slice loop: the cross-slice consistency
assertions (lines 281-289) and the step computation (lines 290-297). -/
def processLater (ifd : IFD) (i : Nat) (span : Nat × Nat) (l' : List (Nat × Nat))
    (st : LoopSt) : Except SErr LoopSt := do
  let p ← match st.p0 with
    | some p => pure p
    | none => throw .pyError
  if p.width ≠ ifd.get_value "ImageWidth" p.width then throw .inconsistentWidth
  if p.length ≠ ifd.get_value "ImageLength" p.length then throw .inconsistentLength
  if p.planar ≠ ifd.get_value "PlanarConfiguration" p.planar then throw .inconsistentPlanar
  if p.strip_length ≠ u32sub span.2 span.1 then throw .inconsistentStripLength
  match p.bits, ifd.get_value "BitsPerSample" p.bits with
  | some (.arrv bl), some (.arrv bl2) =>
      if bl ≠ bl2 then throw .inconsistentBits else pure ()
  | some (.arrv bl), some (.scalar s) =>
      if bl.all (fun x => x == s) then pure () else throw .inconsistentBits
  | some (.arrv _), none => pure ()
  | some (.scalar a), some (.scalar b) =>
      if a ≠ b then throw .inconsistentBits else pure ()
  | some (.scalar _), some (.arrv _) => throw .pyError
  | some (.scalar _), none => pure ()
  | none, _ => throw .pyError
  let prevEnd ← match st.l.getLast? with
    | some pr => pure pr.2
    | none => throw .pyError
  if i = 1 then
    -- `step = l[-1][0] - l[-2][1]` is a numpy uint32 subtraction and
    -- wraps modulo 2^32, so the `assert step>=0` of line 293 can never
    -- fail; the check is kept as written.
    let step := u32sub span.1 prevEnd
    if (step : Int) < 0 then throw .stepAssert
    pure ⟨l', step, st.can_return_memmap, st.p0⟩
  else
    let can' := if st.step ≠ u32sub span.1 prevEnd then false else st.can_return_memmap
    pure ⟨l', st.step, can', st.p0⟩

/-- One iteration of the `for ifd in ifd_lst:` loop of `get_samples`
(lines 228-298): contiguity check, strip-span recording, then the
`i == 0` / `i > 0` branch. -/
def processIFD (t : TIFFstack) (ifd : IFD) (i : Nat) (st : LoopSt) :
    Except SErr LoopSt :=
  match ifd.is_contiguous with
  | none => .error .pyError
  | some false => .error .notContiguous
  | some true =>
      match ifd.get_value "StripOffsets" none, ifd.get_value "StripByteCounts" none with
      | some so, some sc =>
          let span? : Except SErr (Nat × Nat) :=
            match so, sc with
            | .arrv offs, .arrv cnts =>
                match offs.head?, offs.getLast?, cnts.getLast? with
                | some o0, some oL, some cL => .ok (o0, u32add oL cL)
                | _, _, _ => .error .pyError
            | .scalar o, .scalar c => .ok (o, u32add o c)
            | _, _ => .error .pyError
          match span? with
          | .error e => .error e
          | .ok span =>
              let l' := st.l ++ [span]
              if i = 0 then processFirst t ifd so span l' st
              else processLater ifd i span l' st
      | _, _ => .error .pyError

/-- The slice loop itself, in chain order. -/
def runSlices (t : TIFFstack) : List IFD → Nat → LoopSt → Except SErr LoopSt
  | [], _, st => .ok st
  | ifd :: rest, i, st =>
      match processIFD t ifd i st with
      | .error e => .error e
      | .ok st' => runSlices t rest (i + 1) st'

/-- Python extended slice `row[a:b:s]` for nonnegative bounds: the
elements at indices `a, a+s, ...` below `min b row.length`. -/
def stridedSlice (row : List Nat) (a b s : Nat) : List Nat :=
  if s = 0 then []
  else
    ((List.range row.length).filter fun i =>
        decide (a ≤ i ∧ i < b ∧ (i - a) % s = 0)).map fun i => row.getD i 0

/-- One returned channel array: its underlying bytes in C order, its
shape `(depth, length, width)`, and its element byte size. -/
structure Sample where
  flat : List Nat
  shape : Nat × Nat × Nat
  esize : Nat
deriving DecidableEq, Repr

/-- The interleaved channel loop of lines 391-396.  `tmp =
arr[:,k+j:k+j+bytes:samples_per_pixel]` is taken per row and flattened
in C order; the `k += bytes` of line 396 advancing the column start for
every channel is kept exactly as in the source. -/
def channelLoop (rows : List (List Nat)) (bytes spp depth lengthN widthN : Nat)
    (dtype_lst : List Nat) : List Nat → Nat → Except SErr (List Sample)
  | [], _ => .ok []
  | j :: js, k =>
      let flat := (rows.map fun row => stridedSlice row (k + j) (k + j + bytes) spp).flatten
      let esize := dtype_lst.getD j 0
      if esize = 0 then .error .pyError
      else if flat.length % esize ≠ 0 then .error .pyError
      else if flat.length / esize ≠ depth * lengthN * widthN then .error .reshapeError
      else
        match channelLoop rows bytes spp depth lengthN widthN dtype_lst js (k + bytes) with
        | .error e => .error e
        | .ok ss => .ok (⟨flat, (depth, lengthN, widthN), esize⟩ :: ss)

/-- Everything after the slice loop (lines 321-399): the copying slow
path when the fast path was ruled out, otherwise the zero-copy strided
view and the per-channel slicing. -/
def finishSamples (t : TIFFstack) (depth : Nat) (st : LoopSt) :
    Except SErr (List Sample × List String) := do
  let p ← match st.p0 with
    | some p => pure p
    | none => throw .pyError
  let sample_names := (List.range p.spp).map fun j => "sample" ++ toString j
  let widthN ← match p.width with
    | some (.scalar n) => pure n
    | _ => throw .pyError
  let lengthN ← match p.length with
    | some (.scalar n) => pure n
    | _ => throw .pyError
  if ¬ st.can_return_memmap then
    -- slow path (lines 324-342); `numpy.empty` leaves the unwritten
    -- remainder uninitialized, modelled as zero bytes
    if p.planar = some (.scalar 1) then
      if p.spp = 1 then do
        if st.l.length ≠ p.strips_per_image then throw .lenStripsAssert
        if p.strips_per_image = 0 then throw .pyError
        let segs ← st.l.mapM fun se => do
          if p.compression = some (.scalar 5) then throw .externalCodec
          pure (pySliceN t.data se.1 se.2)
        let written := segs.flatten
        if written.length > p.bytes_per_image then throw .pyError
        let arrBytes := written ++ List.replicate (p.bytes_per_image - written.length) 0
        let esize := p.dtype_lst.getD 0 0
        if esize = 0 then throw .pyError
        if p.bytes_per_image % esize ≠ 0 then throw .pyError
        if p.bytes_per_image / esize ≠ depth * lengthN * widthN then throw .reshapeError
        pure ([⟨arrBytes, (depth, lengthN, widthN), esize⟩], sample_names)
      else throw .unsupportedSPP
    else throw .unsupportedPlanar
  else do
    -- fast path (lines 344-353): pick the spanning view; the
    -- comparisons and offsets are numpy uint32 arithmetic
    let startStop ← match st.l.head?, st.l.getLast? with
      | some h, some la => pure (h.1, la.2)
      | _, _ => throw .pyError
    let start := startStop.1
    let stop := startStop.2
    let step := st.step
    let arrK ←
      if start > step then
        pure (pySliceN t.data (start - step) stop, step)
      else if stop ≤ u32sub t.data.length step then
        pure (pySliceN t.data start (u32add stop step), 0)
      else throw .startEndStepError
    let arrBytes := arrK.1
    let k := arrK.2
    let rowLen := u32add p.strip_length step
    if arrBytes.length ≠ depth * rowLen then throw .reshapeError
    let rows := chunkList rowLen arrBytes
    if p.planar = some (.scalar 2) then
      -- line 355-384: the LSM510 plane slicing needs the vendor
      -- metadata attached by the external `lsm` module (not in `src/`)
      if t.is_lsm then throw .vendorLsmPath else throw .unsupportedPlanar
    else if p.planar = some (.scalar 1) then do
      let bytes ← match p.bits with
        | some (.arrv bl) => pure (u32mul ((bl.take p.spp).sum / 8) (widthN * lengthN))
        | some (.scalar b) => pure (u32mul (b / 8) (widthN * lengthN))
        | _ => throw .pyError
      let samples ← channelLoop rows bytes p.spp depth lengthN widthN p.dtype_lst
        (List.range p.spp) k
      pure (samples, sample_names)
    else throw .unsupportedPlanar

/-- The slice selection of line 225: directories whose
`NewSubfileType` value equals the selector, where a directory without
the tag gets the selector itself as default and therefore matches. -/
def selectedIFDs (t : TIFFstack) (subfile_type : Nat) : List IFD :=
  t.ifds.filter fun ifd =>
    decide (ifd.get_value "NewSubfileType" (some (.scalar subfile_type))
      = some (.scalar subfile_type))

/-- `TIFFfile.get_samples` (lines 203-399). -/
def get_samples (t : TIFFstack) (subfile_type : Nat) :
    Except SErr (List Sample × List String) :=
  let lst := selectedIFDs t subfile_type
  match runSlices t lst 0 ⟨[], 0, true, none⟩ with
  | .error e => .error e
  | .ok st => finishSamples t lst.length st

/-! ### Concrete inputs used by the claim theorems -/

/-- A 20-byte little-endian file holding a two-directory chain:
header offset 8, an empty directory at 8 whose next-offset is 14, and an
empty directory at 14 whose next-offset is 0. -/
def dataC1 : List Nat := [73, 73, 42, 0, 8, 0, 0, 0, 0, 0, 14, 0, 0, 0, 0, 0, 0, 0, 0, 0]

/-- One inline entry: tag 256, type 4 (`LONG`, width 4), count 1,
value field bytes `[7,0,0,0]`. -/
def dataC2 : List Nat := [0, 1, 4, 0, 1, 0, 0, 0, 7, 0, 0, 0]

/-- One out-of-line entry: tag 256, type 5 (`RATIONAL`, width 8),
count 1, offset field 12, with the 8 rational bytes at offset 12. -/
def dataC2b : List Nat := [0, 1, 5, 0, 1, 0, 0, 0, 12, 0, 0, 0, 1, 0, 0, 0, 2, 0, 0, 0]

/-- One entry with an unresolvable type code 13. -/
def dataC7 : List Nat := [1, 0, 13, 0, 1, 0, 0, 0, 0, 0, 0, 0]

/-- A 14-byte file whose single directory's next-offset points back at
the directory itself (offset 8): a cyclic chain. -/
def dataCyc : List Nat := [73, 73, 42, 0, 8, 0, 0, 0, 0, 0, 8, 0, 0, 0]

/-- A file whose header declares big-endian (`MM` marker) but whose
magic is stored little-endian, so it opens on a little-endian host; the
bytes 1, 2 sit at offsets 14, 15. -/
def dataC6be : List Nat := [77, 77, 42, 0, 8, 0, 0, 0, 0, 0, 0, 0, 0, 0, 1, 2]

/-- A file whose header declares little-endian (`II` marker) but whose
magic is stored big-endian, so it opens on a big-endian host; the bytes
1, 2 sit at offsets 14, 15. -/
def dataC6le : List Nat := [73, 73, 0, 42, 0, 0, 0, 8, 0, 0, 0, 0, 0, 0, 1, 2]

/-- A genuinely big-endian file (all multi-byte header fields stored
big-endian). -/
def dataC6beTrue : List Nat := [77, 77, 0, 42, 0, 0, 0, 8, 0, 0, 0, 0, 0, 0, 1, 2]

/-- The interleaved 2-channel, 1-byte-per-sample, 2x2 slice of the
claim: a single uncompressed directory whose 8 strip bytes at offset 100
are `[A0,B0,A1,B1,A2,B2,A3,B3] = [10,20,11,21,12,22,13,23]`. -/
def ifdC3 : IFD :=
  ⟨[("ImageWidth", .scalar 2), ("ImageLength", .scalar 2),
    ("SamplesPerPixel", .scalar 2), ("PlanarConfiguration", .scalar 1),
    ("BitsPerSample", .arrv [8, 8]), ("Compression", .scalar 1),
    ("StripOffsets", .scalar 100), ("StripByteCounts", .scalar 8)]⟩

/-- The file carrying `ifdC3`. -/
def tiffC3 : TIFFstack :=
  ⟨List.replicate 100 0 ++ [10, 20, 11, 21, 12, 22, 13, 23], [ifdC3], false⟩

/-- The contiguous strip layout of the claim:
ranges [(0,100), (100,250), (250,400)]. -/
def ifdC4ok : IFD :=
  ⟨[("StripOffsets", .arrv [0, 100, 250]), ("StripByteCounts", .arrv [100, 150, 150])]⟩

/-- The non-contiguous strip layout of the claim:
ranges [(0,100), (110,250)]. -/
def ifdC4bad : IFD :=
  ⟨[("StripOffsets", .arrv [0, 110]), ("StripByteCounts", .arrv [100, 140])]⟩

/-- A file whose only (hence first selected) slice is non-contiguous. -/
def tiffC4 : TIFFstack := ⟨[], [ifdC4bad], false⟩

/-- A well-formed uncompressed 10x10, 8-bit, single-sample slice with
one 100-byte strip at `so`; `w`, `l`, `pc`, `b` are the width, length,
planar configuration and bits-per-sample tag values. -/
def ifdC5 (so w l pc b : Nat) : IFD :=
  ⟨[("ImageWidth", .scalar w), ("ImageLength", .scalar l),
    ("PlanarConfiguration", .scalar pc), ("BitsPerSample", .scalar b),
    ("Compression", .scalar 1), ("StripOffsets", .scalar so),
    ("StripByteCounts", .scalar 100)]⟩

/-- Three-slice chains whose slice 2 differs from slices 0 and 1 in one
structural tag; slices 0 and 1 are `ifdC5 1000 10 10 1 8` and
`ifdC5 1100 10 10 1 8`. -/
def tiffC5 (w l pc b : Nat) : TIFFstack :=
  ⟨List.replicate 1300 7,
   [ifdC5 1000 10 10 1 8, ifdC5 1100 10 10 1 8, ifdC5 1200 w l pc b], false⟩

/-- The slice-0 parameters of the `tiffC5` chains. -/
def pC5 : P0 :=
  ⟨some (.scalar 1), some (.scalar 10), some (.scalar 10), 1, some (.scalar 1),
   some (.scalar 8), [1], 8, 1, 10, 100, 100, 10, 1⟩

/-- The loop state after slices 0 and 1 of the `tiffC5` chains. -/
def stC5 : LoopSt := ⟨[(1000, 1100), (1100, 1200)], 0, true, some pC5⟩

/-- Two uncompressed 10x10, 8-bit slices whose strip spans overlap:
slice 0 occupies bytes [100, 200), slice 1 bytes [50, 150). -/
def tiffC10 : TIFFstack :=
  ⟨List.replicate 300 0, [ifdC5 100 10 10 1 8, ifdC5 50 10 10 1 8], false⟩

/-- A directory carrying no `NewSubfileType` entry. -/
def ifdC9 : IFD := ⟨[("ImageWidth", .scalar 5)]⟩

/-- A directory carrying `NewSubfileType = 1`. -/
def ifdC9b : IFD := ⟨[("NewSubfileType", .scalar 1)]⟩

/-- A file holding both directories above. -/
def tiffC9 : TIFFstack := ⟨[], [ifdC9, ifdC9b], false⟩

/-- A `TIFFstack` carrying no directories; the slice loop only consults
`is_lsm`, so loop computations can be transported to it. -/
def noStack : TIFFstack := ⟨[], [], false⟩

instance instDecEqExcept {ε α : Type} [DecidableEq ε] [DecidableEq α] :
    DecidableEq (Except ε α)
  | .error x, .error y =>
      if h : x = y then isTrue (by rw [h])
      else isFalse (fun hc => by cases hc; exact h rfl)
  | .error _, .ok _ => isFalse (fun hc => by cases hc)
  | .ok _, .error _ => isFalse (fun hc => by cases hc)
  | .ok x, .ok y =>
      if h : x = y then isTrue (by rw [h])
      else isFalse (fun hc => by cases hc; exact h rfl)

/-! ### Helper lemmas -/

/-- The fuelled walk reproduces any chain described by `ChainSpec`,
directory by directory, when given enough fuel. -/
theorem walkIFDs_of_chain (native : Endian) (data : List Nat) :
    ∀ (offs : List Nat) (offset fuel : Nat),
      ChainSpec native data offset offs → offs.length < fuel →
      walkIFDs native data fuel offset = some (offs.map (readIFD native data)) := by
  intro offs
  induction offs with
  | nil =>
      intro offset fuel hc hf
      unfold ChainSpec at hc
      cases fuel with
      | zero => omega
      | succ n => simp [walkIFDs, hc]
  | cons o rest ih =>
      intro offset fuel hc hf
      unfold ChainSpec at hc
      obtain ⟨h1, h2, h3⟩ := hc
      cases fuel with
      | zero => omega
      | succ n =>
          have hr := ih (nextIFDOffset native data o) n h3 (by simpa using hf)
          subst h1
          simp [walkIFDs, h2, hr]

/-- Stepping the slice loop past a successfully processed slice. -/
theorem runSlices_cons_ok (t : TIFFstack) (ifd : IFD) (rest : List IFD)
    (i : Nat) (st st' : LoopSt) (h : processIFD t ifd i st = .ok st') :
    runSlices t (ifd :: rest) i st = runSlices t rest (i + 1) st' := by
  conv_lhs => unfold runSlices
  rw [h]

/-- A slice whose processing fails aborts the slice loop. -/
theorem runSlices_cons_err (t : TIFFstack) (ifd : IFD) (rest : List IFD)
    (i : Nat) (st : LoopSt) (e : SErr) (h : processIFD t ifd i st = .error e) :
    runSlices t (ifd :: rest) i st = .error e := by
  unfold runSlices
  rw [h]

/-- `get_samples` forwards a failing slice loop. -/
theorem get_samples_error_of_runSlices (t : TIFFstack) (s : Nat) (e : SErr)
    (h : runSlices t (selectedIFDs t s) 0 ⟨[], 0, true, none⟩ = .error e) :
    get_samples t s = .error e := by
  show (match runSlices t (selectedIFDs t s) 0 ⟨[], 0, true, none⟩ with
        | .error e => (.error e : Except SErr (List Sample × List String))
        | .ok st => finishSamples t (selectedIFDs t s).length st) = .error e
  rw [h]

/-- A non-contiguous slice makes `processIFD` fail with the
`NotImplementedError('none contiguous strips')` of line 230. -/
theorem processIFD_noncontig (t : TIFFstack) (ifd : IFD) (i : Nat) (st : LoopSt)
    (h : ifd.is_contiguous = some false) :
    processIFD t ifd i st = .error .notContiguous := by
  unfold processIFD
  rw [h]

/-- A slice whose contiguity check does not come back `true` never lets
`processIFD` succeed. -/
theorem processIFD_ok_contig (t : TIFFstack) (ifd : IFD) (i : Nat) (st st' : LoopSt)
    (h : processIFD t ifd i st = .ok st') : ifd.is_contiguous = some true := by
  unfold processIFD at h
  cases hic : ifd.is_contiguous with
  | none => rw [hic] at h; exact absurd h (by simp)
  | some b =>
      cases b with
      | false => rw [hic] at h; exact absurd h (by simp)
      | true => rfl

/-- If any slice of the remaining list is non-contiguous, the slice
loop cannot succeed. -/
theorem runSlices_not_ok (t : TIFFstack) :
    ∀ (lst : List IFD) (i : Nat) (st : LoopSt) (ifd : IFD),
      ifd ∈ lst → ifd.is_contiguous ≠ some true →
      ∀ out, runSlices t lst i st ≠ .ok out := by
  intro lst
  induction lst with
  | nil =>
      intro i st ifd hmem
      exact absurd hmem (by simp)
  | cons a rest ih =>
      intro i st ifd hmem hnc out
      unfold runSlices
      cases hpi : processIFD t a i st with
      | error e => simp
      | ok st' =>
          rcases List.mem_cons.mp hmem with rfl | hmem'
          · exact absurd (processIFD_ok_contig t ifd i st st' hpi) hnc
          · exact ih (i + 1) st' ifd hmem' hnc out

/-- `get_values` returns `None` whenever the type-code tables fail to
resolve (the bare `return` of line 104). -/
theorem get_values_none (native : Endian) (data : List Nat) (offset : Int)
    (typ count : Nat) (htyp : type2bytes typ = none) :
    get_values native data offset typ count = none := by
  unfold get_values
  rw [htyp]

/-- The slice-loop body reads the file object only through `is_lsm`. -/
theorem processIFD_congr (t t' : TIFFstack) (h : t.is_lsm = t'.is_lsm)
    (ifd : IFD) (i : Nat) (st : LoopSt) :
    processIFD t ifd i st = processIFD t' ifd i st := by
  unfold processIFD processFirst
  rw [h]

/-- The slice loop reads the file object only through `is_lsm`. -/
theorem runSlices_congr (t t' : TIFFstack) (h : t.is_lsm = t'.is_lsm) :
    ∀ (lst : List IFD) (i : Nat) (st : LoopSt),
      runSlices t lst i st = runSlices t' lst i st := by
  intro lst
  induction lst with
  | nil => intro i st; rfl
  | cons a rest ih =>
      intro i st
      unfold runSlices
      rw [processIFD_congr t t' h a i st]
      cases processIFD t' a i st with
      | error e => rfl
      | ok st' => exact ih (i + 1) st'

/-- The cross-slice width assertion of line 281 fails exactly as the
`AssertionError` it raises. -/
theorem processLater_err_width (ifd : IFD) (i : Nat) (span : Nat × Nat)
    (l' : List (Nat × Nat)) (st : LoopSt) (p : P0)
    (hp : st.p0 = some p)
    (hW : ¬ p.width = ifd.get_value "ImageWidth" p.width) :
    processLater ifd i span l' st = .error .inconsistentWidth := by
  unfold processLater
  rw [hp]
  simp [hW, Bind.bind, Except.bind, pure, Except.pure, throw, throwThe, MonadExceptOf.throw]

set_option maxRecDepth 8192 in
/-- The cross-slice length assertion of line 282. -/
theorem processLater_err_length (ifd : IFD) (i : Nat) (span : Nat × Nat)
    (l' : List (Nat × Nat)) (st : LoopSt) (p : P0)
    (hp : st.p0 = some p)
    (hW : ifd.get_value "ImageWidth" p.width = p.width)
    (hL : ¬ p.length = ifd.get_value "ImageLength" p.length) :
    processLater ifd i span l' st = .error .inconsistentLength := by
  unfold processLater
  rw [hp]
  simp [hW, hL, Bind.bind, Except.bind, pure, Except.pure, throw, throwThe, MonadExceptOf.throw]

set_option maxRecDepth 8192 in
/-- The cross-slice planar-configuration assertion of line 284. -/
theorem processLater_err_planar (ifd : IFD) (i : Nat) (span : Nat × Nat)
    (l' : List (Nat × Nat)) (st : LoopSt) (p : P0)
    (hp : st.p0 = some p)
    (hW : ifd.get_value "ImageWidth" p.width = p.width)
    (hL : ifd.get_value "ImageLength" p.length = p.length)
    (hP : ¬ p.planar = ifd.get_value "PlanarConfiguration" p.planar) :
    processLater ifd i span l' st = .error .inconsistentPlanar := by
  unfold processLater
  rw [hp]
  simp [hW, hL, hP, Bind.bind, Except.bind, pure, Except.pure, throw, throwThe, MonadExceptOf.throw]

set_option maxRecDepth 8192 in
/-- The cross-slice bits-per-sample assertion of line 289 (scalar
form). -/
theorem processLater_err_bits (ifd : IFD) (i : Nat) (span : Nat × Nat)
    (l' : List (Nat × Nat)) (st : LoopSt) (p : P0) (a b : Nat)
    (hp : st.p0 = some p)
    (hW : ifd.get_value "ImageWidth" p.width = p.width)
    (hL : ifd.get_value "ImageLength" p.length = p.length)
    (hP : ifd.get_value "PlanarConfiguration" p.planar = p.planar)
    (hS : u32sub span.2 span.1 = p.strip_length)
    (hba : p.bits = some (.scalar a))
    (hbb : ifd.get_value "BitsPerSample" (some (.scalar a)) = some (.scalar b))
    (hab : ¬ a = b) :
    processLater ifd i span l' st = .error .inconsistentBits := by
  unfold processLater
  rw [hp]
  simp [hW, hL, hP, hS, hba, hbb, hab, Bind.bind, Except.bind, pure, Except.pure, throw,
    throwThe, MonadExceptOf.throw]

/-- The pairwise strip-adjacency walk succeeds exactly when every
strip's end equals the next strip's start. -/
theorem contigAux_iff :
    ∀ (offs cnts : List Nat), offs.length ≤ cnts.length + 1 →
      (contigAux offs cnts = some true ↔
        ∀ i, i + 1 < offs.length →
          u32add (offs.getD i 0) (cnts.getD i 0) = offs.getD (i + 1) 0) := by
  intro offs
  induction offs with
  | nil =>
      intro cnts hlen
      constructor
      · intro _ i hi
        simp at hi
      · intro _
        rfl
  | cons o0 tl ih =>
      intro cnts hlen
      cases tl with
      | nil =>
          constructor
          · intro _ i hi
            simp at hi
          · intro _
            rfl
      | cons o1 os =>
          cases cnts with
          | nil =>
              simp only [List.length_cons, List.length_nil] at hlen
              omega
          | cons c0 cs =>
              have hlen' : (o1 :: os).length ≤ cs.length + 1 := by
                simp only [List.length_cons] at hlen ⊢
                omega
              unfold contigAux
              by_cases hm : u32add o0 c0 = o1
              · rw [if_neg (not_not_intro hm), ih cs hlen']
                constructor
                · intro h i hi
                  cases i with
                  | zero => simpa using hm
                  | succ j =>
                      have hj := h j (by simp only [List.length_cons] at hi ⊢; omega)
                      simpa using hj
                · intro h i hi
                  have hj := h (i + 1) (by simp only [List.length_cons] at hi ⊢; omega)
                  simpa using hj
              · rw [if_pos hm]
                constructor
                · intro h
                  exact absurd h (by simp)
                · intro h
                  exact absurd (h 0 (by simp)) (by simpa using hm)

/-! ### Claim theorems -/

/-- C1: a well-formed file whose directory chain consists of the
offsets `offs`, linked by nonzero next-directory offsets and terminated
by a next-directory offset of 0, opens to a directory list holding
exactly `offs.length` directories in file-chain order: index `i` is the
directory decoded at the `i`-th chain offset. -/
theorem c1_chain_decodes_in_order (native : Endian) (data : List Nat)
    (first_byte fuel : Nat) (offs : List Nat)
    (hbo : get_uint16 native data first_byte = 18761 ∨
      get_uint16 native data first_byte = 19789)
    (hmag : get_uint16 native data (first_byte + 2) = 42)
    (hchain : ChainSpec native data
      (first_byte + get_uint32 native data (first_byte + 4)) offs)
    (hfuel : offs.length < fuel) :
    ∃ en, openTiff native data first_byte fuel =
        .ok ⟨en, offs.map (readIFD native data)⟩ ∧
      (offs.map (readIFD native data)).length = offs.length := by
  have hw := walkIFDs_of_chain native data offs _ fuel hchain hfuel
  rcases hbo with h | h
  · refine ⟨.little, ?_, by simp⟩
    unfold openTiff openTiffBody
    rw [h]
    simp [hmag, hw]
  · refine ⟨.big, ?_, by simp⟩
    unfold openTiff openTiffBody
    rw [h]
    simp [hmag, hw]

/-- C1 witness: the two-directory file `dataC1` decodes to the chain
[8, 14]. -/
theorem c1_chain_decodes_in_order_witness :
    ∃ en, openTiff .little dataC1 0 3 =
        .ok ⟨en, [8, 14].map (readIFD .little dataC1)⟩ ∧
      ([8, 14].map (readIFD .little dataC1)).length = [8, 14].length :=
  c1_chain_decodes_in_order .little dataC1 0 3 [8, 14]
    (Or.inl (by decide)) (by decide) (by decide) (by decide)

/-- C2: an entry whose resolved byte width is `w` decodes inline (value
read from the 4-byte value field, offset recorded as none, no memory
region) exactly when `count == 1` and `1 <= w <= 4`; otherwise the
4-byte field is read as a signed-32-bit absolute offset, the value is
the typed view of `count` elements there, and the single region
[offset, offset + w*count) is registered under the entry's tag name; in
particular byte width 8 with count 1 goes through the offset. -/
theorem c2_inline_vs_offset (native : Endian) (data : List Nat) (off w : Nat)
    (hw : type2bytes (get_uint16 native data (off + 2)) = some w) :
    (get_uint32 native data (off + 4) = 1 ∧ 1 ≤ w ∧ w ≤ 4 →
      (IFDEntry.init native data off).offset = none ∧
      (IFDEntry.init native data off).value =
        (get_value native data ((off : Int) + 8)
          (get_uint16 native data (off + 2))).map .scalar ∧
      (IFDEntry.init native data off).memory_usage = []) ∧
    (¬ (get_uint32 native data (off + 4) = 1 ∧ 1 ≤ w ∧ w ≤ 4) →
      (IFDEntry.init native data off).offset =
        some (get_int32 native data (off + 8)) ∧
      (IFDEntry.init native data off).value =
        (get_values native data (get_int32 native data (off + 8))
          (get_uint16 native data (off + 2))
          (get_uint32 native data (off + 4))).map .arrv ∧
      (IFDEntry.init native data off).memory_usage =
        [(get_int32 native data (off + 8),
          get_int32 native data (off + 8) + w * get_uint32 native data (off + 4),
          (IFDEntry.init native data off).tag_name)]) ∧
    (w = 8 → get_uint32 native data (off + 4) = 1 →
      (IFDEntry.init native data off).offset =
        some (get_int32 native data (off + 8))) := by
  have hgd : (type2bytes (get_uint16 native data (off + 2))).getD 0 = w := by
    rw [hw]
    rfl
  refine ⟨fun hc => ?_, fun hc => ?_, fun h8 h1 => ?_⟩
  · simp only [IFDEntry.init, hgd]
    rw [if_pos hc]
    exact ⟨rfl, rfl, rfl⟩
  · simp only [IFDEntry.init, hgd]
    rw [if_neg hc]
    exact ⟨rfl, rfl, rfl⟩
  · subst h8
    simp only [IFDEntry.init, hgd]
    rw [if_neg (by omega)]

/-- C2 witness: the inline LONG entry of `dataC2` and the out-of-line
RATIONAL entry of `dataC2b`. -/
theorem c2_inline_vs_offset_witness :
    ((IFDEntry.init .little dataC2 0).offset = none ∧
     (IFDEntry.init .little dataC2 0).value =
       (get_value .little dataC2 ((0 : Int) + 8)
         (get_uint16 .little dataC2 (0 + 2))).map .scalar ∧
     (IFDEntry.init .little dataC2 0).memory_usage = []) ∧
    (IFDEntry.init .little dataC2b 0).offset =
      some (get_int32 .little dataC2b (0 + 8)) :=
  ⟨(c2_inline_vs_offset .little dataC2 0 4 (by decide)).1 (by decide),
   (c2_inline_vs_offset .little dataC2b 0 8 (by decide)).2.2 rfl (by decide)⟩

/-- C6: typed reads do not honor the byte order declared in the header.
On a little-endian host a file declaring big-endian still decodes the
byte pair 1, 2 to 0x0201 = 513 (the claim requires 0x0102 = 258), a
genuinely big-endian file is rejected at the magic check, and on a
big-endian host a file declaring little-endian decodes the same pair to
0x0102 = 258 (the claim requires 0x0201): on either host one of the
claim's two cases fails. -/
theorem c6_endian_ignored :
    (openTiff .little dataC6be 0 3).endianOf = some .big ∧
    get_uint16 .little dataC6be 14 = 513 ∧
    openTiff .little dataC6beTrue 0 3 = .badMagic ∧
    (openTiff .big dataC6le 0 3).endianOf = some .little ∧
    get_uint16 .big dataC6le 14 = 258 ∧
    (513 : Nat) ≠ 258 := by
  decide

/-- C7: `get_values` with an unresolvable type code returns `None` to
its caller (instead of failing with an UnknownType error), and a
directory entry built from such a type code is silently left without a
value. -/
theorem c7_unknown_type_returns_none (native : Endian) (data : List Nat)
    (offset : Int) (typ count : Nat) (htyp : type2bytes typ = none) :
    get_values native data offset typ count = none ∧
    ∀ off2 : Nat, get_uint16 native data (off2 + 2) = typ →
      (IFDEntry.init native data off2).value = none := by
  refine ⟨get_values_none native data offset typ count htyp, fun off2 h2 => ?_⟩
  have hgd : (type2bytes (get_uint16 native data (off2 + 2))).getD 0 = 0 := by
    rw [h2, htyp]
    rfl
  simp only [IFDEntry.init, hgd]
  rw [if_neg (by omega)]
  show (get_values native data (get_int32 native data (off2 + 8))
    (get_uint16 native data (off2 + 2))
    (get_uint32 native data (off2 + 4))).map EntryVal.arrv = none
  rw [h2, get_values_none native data _ typ _ htyp]
  rfl

/-- C7 witness: type code 13 yields `None` from `get_values` and an
entry with no value. -/
theorem c7_unknown_type_returns_none_witness :
    get_values .little dataC7 0 13 1 = none ∧
    (IFDEntry.init .little dataC7 0).value = none :=
  ⟨(c7_unknown_type_returns_none .little dataC7 0 13 1 rfl).1,
   (c7_unknown_type_returns_none .little dataC7 0 13 1 rfl).2 0 (by decide)⟩

/-- C8: the directory-chain walk is unbounded; on the cyclic file
`dataCyc` (whose single directory's next-offset points back at itself)
no amount of fuel makes the walk terminate, so opening diverges instead
of failing with a FormatError (no such error exists in the code: the
only open-time failures are the two header ValueErrors). -/
theorem c8_cycle_diverges : ∀ fuel, openTiff .little dataCyc 0 fuel = .diverged := by
  have hwalk : ∀ fuel, walkIFDs .little dataCyc fuel 8 = none := by
    intro fuel
    induction fuel with
    | zero => rfl
    | succ n ih =>
        unfold walkIFDs
        rw [if_neg (by decide), show nextIFDOffset .little dataCyc 8 = 8 from rfl, ih]
  intro fuel
  show (match walkIFDs .little dataCyc fuel 8 with
        | none => OpenResult.diverged
        | some l => OpenResult.ok ⟨.little, l⟩) = OpenResult.diverged
  rw [hwalk fuel]

set_option maxRecDepth 1000000 in
/-- C3: the interleaved fast-path channel slicing is broken for more
than one channel.  On the claim's 2-channel 2x2 input, `get_samples`
fails with a reshape `ValueError` instead of returning the two
channels: channel 0's slice `arr[:, 0:8:2]` is `[A0,A1,A2,A3]` as the
claim says, but because `k += bytes` (line 396) advances the column
start, channel 1 is sliced as `arr[:, 9:17:2]` — an empty slice past
the 8-byte row — rather than the claimed `arr[:, 1:9:2] =
[B0,B1,B2,B3]`, and the reshape to (1, 2, 2) fails. -/
theorem c3_interleaved_slicing_bug :
    get_samples tiffC3 0 = .error .reshapeError ∧
    stridedSlice [10, 20, 11, 21, 12, 22, 13, 23] 0 8 2 = [10, 11, 12, 13] ∧
    stridedSlice [10, 20, 11, 21, 12, 22, 13, 23] 9 17 2 = [] ∧
    stridedSlice [10, 20, 11, 21, 12, 22, 13, 23] 1 9 2 = [20, 21, 22, 23] := by
  exact ⟨by rfl, by decide, by decide, by decide⟩

/-- C4: contiguity holds exactly when each strip's end equals the next
strip's start; a single strip is always contiguous; the claim's two
strip layouts check as stated; and a selected slice failing the check
makes `get_samples` fail (the first such slice with the
non-contiguous-strips error) rather than return channels. -/
theorem c4_contiguity :
    IFD.is_contiguous ifdC4ok = some true ∧
    IFD.is_contiguous ifdC4bad = some false ∧
    (∀ offs cnts : List Nat, offs.length ≤ cnts.length + 1 →
      (contigAux offs cnts = some true ↔
        ∀ i, i + 1 < offs.length →
          u32add (offs.getD i 0) (cnts.getD i 0) = offs.getD (i + 1) 0)) ∧
    (∀ (ifd : IFD) (o c : Nat), ifd.get "StripOffsets" = some (.scalar o) →
      ifd.get "StripByteCounts" = some (.scalar c) →
      ifd.is_contiguous = some true) ∧
    (∀ (t : TIFFstack) (s : Nat) (ifd : IFD), ifd ∈ selectedIFDs t s →
      ifd.is_contiguous ≠ some true → ∀ r, get_samples t s ≠ .ok r) ∧
    (∀ (t : TIFFstack) (s : Nat) (ifd : IFD) (rest : List IFD),
      selectedIFDs t s = ifd :: rest → ifd.is_contiguous = some false →
      get_samples t s = .error .notContiguous) := by
  refine ⟨by decide, by decide, contigAux_iff, ?_, ?_, ?_⟩
  · intro ifd o c ho hc
    unfold IFD.is_contiguous
    rw [ho, hc]
  · intro t s ifd hmem hnc r
    cases hr : runSlices t (selectedIFDs t s) 0 ⟨[], 0, true, none⟩ with
    | error e =>
        rw [get_samples_error_of_runSlices t s e hr]
        simp
    | ok st => exact absurd hr (runSlices_not_ok t (selectedIFDs t s) 0 _ ifd hmem hnc st)
  · intro t s ifd rest hsel h
    apply get_samples_error_of_runSlices
    rw [hsel]
    exact runSlices_cons_err _ _ _ _ _ _ (processIFD_noncontig t ifd 0 _ h)

/-- C4 witness: the file whose first selected slice has the claim's
non-contiguous strip ranges fails with the non-contiguous error. -/
theorem c4_contiguity_witness : get_samples tiffC4 0 = .error .notContiguous :=
  c4_contiguity.2.2.2.2.2 tiffC4 0 ifdC4bad [] rfl (by decide)

set_option maxRecDepth 1000000 in
/-- C5: a chain whose slice 2 declares a width, height (length), planar
configuration, or bits-per-sample different from slice 0's makes
`get_samples` fail with the corresponding cross-slice assertion,
whatever the differing value is — the value is never coerced or used. -/
theorem c5_inconsistent_directory :
    (∀ w : Nat, ¬ w = 10 →
      get_samples (tiffC5 w 10 1 8) 0 = .error .inconsistentWidth) ∧
    (∀ l : Nat, ¬ l = 10 →
      get_samples (tiffC5 10 l 1 8) 0 = .error .inconsistentLength) ∧
    (∀ pc : Nat, ¬ pc = 1 →
      get_samples (tiffC5 10 10 pc 8) 0 = .error .inconsistentPlanar) ∧
    (∀ b : Nat, ¬ b = 8 →
      get_samples (tiffC5 10 10 1 b) 0 = .error .inconsistentBits) := by
  have hstep : ∀ (g2 : IFD) (tp : TIFFstack) (e : SErr),
      processIFD noStack g2 2 stC5 = .error e →
      selectedIFDs tp 0 = [ifdC5 1000 10 10 1 8, ifdC5 1100 10 10 1 8, g2] →
      tp.is_lsm = false →
      get_samples tp 0 = .error e := by
    intro g2 tp e hpi hsel hlsm
    apply get_samples_error_of_runSlices
    rw [hsel, runSlices_congr tp noStack hlsm]
    have h1 : runSlices noStack [ifdC5 1000 10 10 1 8, ifdC5 1100 10 10 1 8, g2] 0
        ⟨[], 0, true, none⟩ =
        runSlices noStack [ifdC5 1100 10 10 1 8, g2] 1
          ⟨[(1000, 1100)], 0, true, some pC5⟩ :=
      runSlices_cons_ok _ _ _ _ _ _ (by rfl)
    have h2 : runSlices noStack [ifdC5 1100 10 10 1 8, g2] 1
        ⟨[(1000, 1100)], 0, true, some pC5⟩ =
        runSlices noStack [g2] 2 stC5 :=
      runSlices_cons_ok _ _ _ _ _ _ (by rfl)
    rw [h1, h2]
    exact runSlices_cons_err _ _ _ _ _ _ hpi
  refine ⟨fun w hw => ?_, fun l hl => ?_, fun pc hp => ?_, fun b hb => ?_⟩
  · refine hstep (ifdC5 1200 w 10 1 8) _ _ ?_ rfl rfl
    have hred : processIFD noStack (ifdC5 1200 w 10 1 8) 2 stC5 =
        processLater (ifdC5 1200 w 10 1 8) 2 (1200, 1300)
          [(1000, 1100), (1100, 1200), (1200, 1300)] stC5 := by rfl
    rw [hred]
    apply processLater_err_width _ _ _ _ _ pC5 rfl
    intro hcon
    have hcon2 : some (TagValue.scalar 10) = some (TagValue.scalar w) := hcon
    exact hw (TagValue.scalar.inj (Option.some.inj hcon2)).symm
  · refine hstep (ifdC5 1200 10 l 1 8) _ _ ?_ rfl rfl
    have hred : processIFD noStack (ifdC5 1200 10 l 1 8) 2 stC5 =
        processLater (ifdC5 1200 10 l 1 8) 2 (1200, 1300)
          [(1000, 1100), (1100, 1200), (1200, 1300)] stC5 := by rfl
    rw [hred]
    apply processLater_err_length _ _ _ _ _ pC5 rfl (by rfl)
    intro hcon
    have hcon2 : some (TagValue.scalar 10) = some (TagValue.scalar l) := hcon
    exact hl (TagValue.scalar.inj (Option.some.inj hcon2)).symm
  · refine hstep (ifdC5 1200 10 10 pc 8) _ _ ?_ rfl rfl
    have hred : processIFD noStack (ifdC5 1200 10 10 pc 8) 2 stC5 =
        processLater (ifdC5 1200 10 10 pc 8) 2 (1200, 1300)
          [(1000, 1100), (1100, 1200), (1200, 1300)] stC5 := by rfl
    rw [hred]
    apply processLater_err_planar _ _ _ _ _ pC5 rfl (by rfl) (by rfl)
    intro hcon
    have hcon2 : some (TagValue.scalar 1) = some (TagValue.scalar pc) := hcon
    exact hp (TagValue.scalar.inj (Option.some.inj hcon2)).symm
  · refine hstep (ifdC5 1200 10 10 1 b) _ _ ?_ rfl rfl
    have hred : processIFD noStack (ifdC5 1200 10 10 1 b) 2 stC5 =
        processLater (ifdC5 1200 10 10 1 b) 2 (1200, 1300)
          [(1000, 1100), (1100, 1200), (1200, 1300)] stC5 := by rfl
    rw [hred]
    exact processLater_err_bits _ _ _ _ _ pC5 8 b rfl (by rfl) (by rfl) (by rfl)
      (by rfl) rfl (by rfl) (fun hcon => hb hcon.symm)

set_option maxRecDepth 1000000 in
/-- C5 witness: slice 2 differing in width (11), length (11), planar
configuration (2), or bits-per-sample (16) each raise their assertion. -/
theorem c5_inconsistent_directory_witness :
    get_samples (tiffC5 11 10 1 8) 0 = .error .inconsistentWidth ∧
    get_samples (tiffC5 10 11 1 8) 0 = .error .inconsistentLength ∧
    get_samples (tiffC5 10 10 2 8) 0 = .error .inconsistentPlanar ∧
    get_samples (tiffC5 10 10 1 16) 0 = .error .inconsistentBits :=
  ⟨c5_inconsistent_directory.1 11 (by decide),
   c5_inconsistent_directory.2.1 11 (by decide),
   c5_inconsistent_directory.2.2.1 2 (by decide),
   c5_inconsistent_directory.2.2.2 16 (by decide)⟩

/-- C9: a directory with no `NewSubfileType` entry is selected for
every selector value (the `get_value` default is the selector itself),
and a directory is excluded exactly when it carries the tag with a
value different from the selector. -/
theorem c9_missing_subfiletype_selected :
    (∀ (t : TIFFstack) (ifd : IFD), ifd ∈ t.ifds →
      ifd.get "NewSubfileType" = none →
      ∀ selector : Nat, ifd ∈ selectedIFDs t selector) ∧
    (∀ (t : TIFFstack) (selector : Nat) (ifd : IFD), ifd ∈ t.ifds →
      (ifd ∉ selectedIFDs t selector ↔
        ∃ v, ifd.get "NewSubfileType" = some v ∧ v ≠ TagValue.scalar selector)) := by
  constructor
  · intro t ifd hmem hno selector
    unfold selectedIFDs
    rw [List.mem_filter]
    refine ⟨hmem, ?_⟩
    simp [IFD.get_value, hno]
  · intro t selector ifd hmem
    unfold selectedIFDs
    rw [List.mem_filter]
    cases hg : ifd.get "NewSubfileType" with
    | none => simp [IFD.get_value, hg, hmem]
    | some v =>
        simp only [IFD.get_value, hg, hmem, true_and, not_and, decide_eq_true_eq,
          Option.some.injEq, forall_const]
        constructor
        · intro h
          exact ⟨v, rfl, fun hv => h (by rw [hv])⟩
        · rintro ⟨v2, hv2, hne⟩ hcon
          exact hne (hv2.symm.trans hcon)

/-- C9 witness: the tag-less directory of `tiffC9` is selected under
selector 7, while its sibling carrying `NewSubfileType = 1` is not. -/
theorem c9_missing_subfiletype_selected_witness :
    ifdC9 ∈ selectedIFDs tiffC9 7 ∧
    (ifdC9b ∉ selectedIFDs tiffC9 7 ↔
      ∃ v, ifdC9b.get "NewSubfileType" = some v ∧ v ≠ TagValue.scalar 7) :=
  ⟨c9_missing_subfiletype_selected.1 tiffC9 ifdC9 (by decide) rfl 7,
   c9_missing_subfiletype_selected.2 tiffC9 7 ifdC9b (by decide)⟩

set_option maxRecDepth 1000000 in
/-- C10: the step between overlapping slices wraps instead of tripping
the nonnegativity assertion.  With slice 0 spanning [100, 200) and
slice 1 spanning [50, 150), the loop completes successfully with
`step = (50 - 200) mod 2^32 = 4294967146` because numpy uint32
subtraction wraps, the `assert step>=0` of line 293 passes, and the
call then fails later with a reshape `ValueError` while building the
fast-path view — not with the claimed assertion error, and without
taking the copying slow path. -/
theorem c10_step_wraparound :
    runSlices tiffC10 (selectedIFDs tiffC10 0) 0 ⟨[], 0, true, none⟩ =
      .ok ⟨[(100, 200), (50, 150)], 4294967146, true, some pC5⟩ ∧
    u32sub 50 200 = 4294967146 ∧
    get_samples tiffC10 0 = .error .reshapeError := by
  exact ⟨by rfl, by rfl, by rfl⟩

/-- C8 witness: even 100 iterations of fuel leave the cyclic file's
walk unterminated. -/
theorem c8_cycle_diverges_witness : openTiff .little dataCyc 0 100 = .diverged :=
  c8_cycle_diverges 100

end PyTiff


